import Mathlib

/-!
Verification of the storage, key-allocation and audio-capture logic of `src/app.py`
(a Streamlit dashboard over S3).  The S3 client is modelled by explicit behaviour
functions: each wrapper receives, for every (bucket, key/prefix) it may touch, the
outcome the backend would produce for that call, and the wrapper's Python control
flow is translated one-to-one.  A raised `botocore.exceptions.ClientError` is
modelled as an `Except.error` carrying the error code string.  Calls to `st.error`
are collected as a list of reported messages.
-/

deriving instance DecidableEq for Except

namespace App

/-- Outcome of a single `head_object` call against the storage backend: either the
object exists (the call succeeds) or the backend raises a `ClientError` carrying an
error code string such as `"404"`. -/
inductive HeadResult where
  | ok : HeadResult
  | clientError (code : String) : HeadResult
deriving DecidableEq

/-- Behaviour of the backend's `head_object`, as a function of bucket and key. -/
abbrev HeadBehavior := String → String → HeadResult

/-- Translation of `check_file_exists(s3_client, bucket, key)` (app.py lines 95-103):
it calls `head_object` and returns `True` on success; on a `ClientError` it returns
`False` when the error code is `"404"` and re-raises the error (modelled as
`Except.error code`) otherwise. -/
def check_file_exists (head : HeadBehavior) (bucket key : String) : Except String Bool :=
  match head bucket key with
  | .ok => .ok true
  | .clientError code => if code = "404" then .ok false else .error code

/-- A wall-clock date and time with second resolution: exactly the fields that
`datetime.now()` exposes to the format string `"%Y%m%d_%H%M%S"`. -/
structure DateTime where
  year : Nat
  month : Nat
  day : Nat
  hour : Nat
  minute : Nat
  second : Nat
deriving DecidableEq

/-- Zero-padding to two digits, as `strftime` does for `%m`, `%d`, `%H`, `%M`, `%S`. -/
def pad2 (n : Nat) : String :=
  if n < 10 then "0" ++ toString n else toString n

/-- Zero-padding to four digits, as `strftime` does for `%Y`. -/
def pad4 (n : Nat) : String :=
  if n < 10 then "000" ++ toString n
  else if n < 100 then "00" ++ toString n
  else if n < 1000 then "0" ++ toString n
  else toString n

/-- Translation of `datetime.now().strftime("%Y%m%d_%H%M%S")` (app.py line 90): the
timestamp string, determined by the clock reading down to — and only down to — whole
seconds. -/
def strftime_YmdHMS (dt : DateTime) : String :=
  pad4 dt.year ++ pad2 dt.month ++ pad2 dt.day ++ "_" ++
    pad2 dt.hour ++ pad2 dt.minute ++ pad2 dt.second

/-- Translation of `generate_unique_filename(original_filename)` (app.py lines 88-93),
with `os.path.splitext(original_filename) = (name, ext)` passed already split and the
two ambient effects — `datetime.now()` and `str(uuid.uuid4())` — passed as the values
they produced.  The Python body is
`f"{name}_{timestamp}_{unique_id}{ext}"` where `unique_id` is the first 8 characters
of the UUID string (`str(uuid.uuid4())[:8]`). -/
def generate_unique_filename (name ext : String) (now : DateTime) (uuidStr : String) :
    String :=
  name ++ "_" ++ strftime_YmdHMS now ++ "_" ++ uuidStr.take 8 ++ ext

/-- Outcome of `s3_client.upload_file(file_path, bucket, key)`: `none` models success,
`some code` models a raised `ClientError` with that error code. -/
abbrev UploadBehavior := String → String → String → Option String

/-- Translation of the `while check_file_exists(...)` loop of `upload_to_s3`
(app.py lines 110-116), checking the candidate of iteration `i`, then `i + 1`, and so
on.  `fuel` bounds how many iterations are unfolded (the Python loop has no bound of
its own): `Except.ok none` stands for the loop still running after `fuel` checks;
`Except.error code` is the `ClientError` re-raised by `check_file_exists`;
`Except.ok (some u)` is the unique filename whose key the existence check reported
absent. -/
def upload_loop (head : HeadBehavior) (bucket : String) (cand : Nat → String) :
    Nat → Nat → Except String (Option String)
  | _, 0 => .ok none
  | i, fuel + 1 =>
    match check_file_exists head bucket ("source/" ++ cand i) with
    | .error code => .error code
    | .ok true => upload_loop head bucket cand (i + 1) fuel
    | .ok false => .ok (some (cand i))

/-- Translation of `upload_to_s3(bucket, file_path, original_filename)` (app.py lines
105-123).  The ambient `datetime.now()` and `uuid.uuid4()` readings of the successive
`generate_unique_filename` calls are passed as streams (call number `i` sees `nows i`
and `uuids i`), so the candidate filename of iteration `i` is
`generate_unique_filename name ext (nows i) (uuids i)` and the candidate key is
`"source/" ++` that filename (line 111).  The first component is the Python return
value — `some (success, filename)` — or `none` when `fuel` iterations do not settle
the existence-check loop; the second component is the list of keys actually uploaded.
A `ClientError` raised by the existence check or by `upload_file` is caught by the
surrounding `except ClientError` and yields `(False, None)` with nothing uploaded. -/
def upload_to_s3 (head : HeadBehavior) (uploadFile : UploadBehavior)
    (bucket file_path name ext : String) (nows : Nat → DateTime)
    (uuids : Nat → String) (fuel : Nat) :
    Option (Bool × Option String) × List String :=
  let cand := fun i => generate_unique_filename name ext (nows i) (uuids i)
  match upload_loop head bucket cand 0 fuel with
  | .error _ => (some (false, none), [])
  | .ok none => (none, [])
  | .ok (some u) =>
    match uploadFile file_path bucket ("source/" ++ u) with
    | some _ => (some (false, none), [])
    | none => (some (true, some u), ["source/" ++ u])

/-- Python's `str.lower`, as the character-wise lowercase map on the underlying
character sequence. -/
def pyLower (s : String) : String :=
  ⟨s.data.map Char.toLower⟩

/-- Python's `str.endswith`, as a Boolean on the underlying character sequences. -/
def pyEndsWith (s suffixStr : String) : Bool :=
  suffixStr.data.isSuffixOf s.data

/-- A `list_objects_v2` response: `Except.error code` models a raised `ClientError`;
`Except.ok none` a response with no `'Contents'` entry (nothing under the prefix);
`Except.ok (some keys)` a response whose `'Contents'` holds the given keys. -/
abbrev ListResponse := Except String (Option (List String))

/-- Behaviour of the backend's `list_objects_v2`, as a function of bucket and prefix. -/
abbrev ListBehavior := String → String → ListResponse

/-- Translation of `list_s3_files(bucket, prefix, file_extension=None)` (app.py lines
29-42), returning the Python return value together with the list of messages passed
to `st.error`.  `file_extension = none` models the `None` default; Python's
truthiness test `if file_extension:` is false both for `None` and for the empty
string, so in those cases no filtering happens.  The filter keeps exactly the keys
`f` with `f.lower().endswith(file_extension.lower())`. -/
def list_s3_files (listObjects : ListBehavior) (bucket pfx : String)
    (file_extension : Option String) : List String × List String :=
  match listObjects bucket pfx with
  | .error e => ([], ["Error listing S3 files: " ++ e])
  | .ok none => ([], [])
  | .ok (some contents) =>
    match file_extension with
    | none => (contents, [])
    | some fe =>
      if fe = "" then (contents, [])
      else (contents.filter (fun f => pyEndsWith (pyLower f) (pyLower fe)), [])

/-- A `get_object` read: the decoded text body, or a raised `ClientError` code. -/
abbrev ReadBehavior := String → String → Except String String

/-- Translation of `read_text_file(bucket, key)` (app.py lines 44-53): the content on
success; on a `ClientError` the error is reported once via `st.error` and `None` is
returned. -/
def read_text_file (getObject : ReadBehavior) (bucket key : String) :
    Option String × List String :=
  match getObject bucket key with
  | .ok content => (some content, [])
  | .error e => (none, ["Error reading file: " ++ e])

/-- Translation of the success path of `record_audio(duration, sample_rate)` (app.py
lines 55-69): `sd.rec(int(duration * sample_rate), samplerate=sample_rate,
channels=1, dtype=np.int16)` fills a mono int16 buffer of
`int(duration * sample_rate)` frames read from the input device (modelled as the
sample stream `device`), and the recording is returned together with the sample rate.
The duration comes from an integer UI slider and the sample rate defaults to 44100,
so `int(duration * sample_rate)` is exactly `duration * sample_rate`. -/
def record_audio (device : Nat → Int) (duration : Nat) (sample_rate : Nat) :
    List Int × Nat :=
  ((List.range (duration * sample_rate)).map device, sample_rate)

/-- Byte length of `recording.tobytes()` for a mono int16 numpy buffer: 2 bytes per
sample.  Only the byte count feeds the wave-header fields tracked here. -/
def tobytes_length (recording : List Int) : Nat :=
  2 * recording.length

/-- The header fields of the WAV container written through the `wave` module. -/
structure WavFile where
  nchannels : Nat
  sampwidth : Nat
  framerate : Nat
  dataBytes : Nat
deriving DecidableEq

/-- The frame count the `wave` module declares for a file: the total data bytes
written, divided by the size of one frame (`sampwidth * nchannels`). -/
def WavFile.nframes (w : WavFile) : Nat :=
  w.dataBytes / (w.sampwidth * w.nchannels)

/-- Translation of the success path of `save_wav_file(recording, sample_rate)`
(app.py lines 71-86): `setnchannels(1)`, `setsampwidth(2)`,
`setframerate(sample_rate)`, then `writeframes(recording.tobytes())`. -/
def save_wav_file (recording : List Int) (sample_rate : Nat) : WavFile :=
  { nchannels := 1
    sampwidth := 2
    framerate := sample_rate
    dataBytes := tobytes_length recording }

/-- Outcome of the `upload_to_s3` call as observed by `main`: either it returned its
pair, or it let an exception escape (one not caught by its `except ClientError`). -/
inductive UploadCall where
  | returns (success : Bool) (filename : Option String) : UploadCall
  | raises : UploadCall
deriving DecidableEq

/-- Model of `os.path.exists` over an explicit file system: the list of paths that
currently exist. -/
def os_path_exists (fs : List String) (p : String) : Bool :=
  fs.contains p

/-- Model of `os.unlink` over the explicit file system. -/
def os_unlink (fs : List String) (p : String) : List String :=
  fs.filter (fun q => q ≠ p)

/-- Translation of the record-then-upload flow of `main` (app.py lines 158-175) over
the explicit file system `fs`.  If recording failed (`None`) nothing further happens;
if `save_wav_file` returned no path, nothing further happens (no path was produced);
otherwise the temp file exists, and — provided the path is truthy, i.e. non-empty —
the upload is attempted inside `try:` and the `finally:` block unlinks the path
whenever it still exists.  The first component records whether (and how) the upload
call completed; the second is the file system after the flow. -/
def main_record_flow (fs : List String) (recording : Option (List Int))
    (savePath : Option String) (upload : UploadCall) :
    Option UploadCall × List String :=
  match recording with
  | none => (none, fs)
  | some _ =>
    match savePath with
    | none => (none, fs)
    | some p =>
      let fs1 := p :: fs
      if p = "" then (none, fs1)
      else
        let fs2 := if os_path_exists fs1 p then os_unlink fs1 p else fs1
        (some upload, fs2)

/-- Translation of the audio-files column of `main` (app.py lines 190-195): with
`audio_files = list_s3_files(bucket_name, "source/")`, nothing is listed when the
collection is empty or is exactly the bare `"source/"` marker, and otherwise every
entry other than `"source/"` is rendered.  The value is the list of keys displayed. -/
def displayed_audio_files (audio_files : List String) : List String :=
  if audio_files = [] ∨ (audio_files.length = 1 ∧ audio_files.head? = some "source/")
  then []
  else audio_files.filter (fun f => f ≠ "source/")

end App

/-- Helper: Python's `lower` of the empty string is the empty string. -/
theorem pyLower_blank : App.pyLower "" = "" := by
  decide

/-- Helper: every string ends with the empty string. -/
theorem pyEndsWith_blank (s : String) : App.pyEndsWith s "" = true := by
  simp [App.pyEndsWith, List.isSuffixOf]

/-- C3: the allocated filename is literally
`name ++ "_" ++ timestamp ++ "_" ++ random8 ++ ext` with the timestamp formatted at
second resolution; hence it starts with the base name, ends with the original
extension, and (for the 36-character UUID strings actually produced, or any string of
at least 8 characters) the random token has exactly 8 characters. -/
theorem generated_filename_shape (name ext : String) (now : App.DateTime)
    (uuidStr : String) (h8 : 8 ≤ uuidStr.length) :
    App.generate_unique_filename name ext now uuidStr
        = name ++ "_" ++ App.strftime_YmdHMS now ++ "_" ++ uuidStr.take 8 ++ ext
    ∧ (∃ rest, App.generate_unique_filename name ext now uuidStr = name ++ rest)
    ∧ (∃ stem, App.generate_unique_filename name ext now uuidStr = stem ++ ext)
    ∧ (uuidStr.take 8).length = 8 := by
  refine ⟨rfl,
    ⟨"_" ++ App.strftime_YmdHMS now ++ "_" ++ uuidStr.take 8 ++ ext, ?_⟩,
    ⟨name ++ "_" ++ App.strftime_YmdHMS now ++ "_" ++ uuidStr.take 8, rfl⟩, ?_⟩
  · unfold App.generate_unique_filename
    simp [String.append_assoc]
  · rw [String.take_eq]
    show (uuidStr.data.take 8).length = 8
    rw [List.length_take]
    exact Nat.min_eq_left h8

/-- Witness for C3 at a concrete base name, extension, clock reading and UUID. -/
theorem generated_filename_shape_witness :
    8 ≤ ("123e4567-e89b" : String).length
    ∧ App.generate_unique_filename "recording" ".wav" ⟨2024, 1, 2, 3, 4, 5⟩ "123e4567-e89b"
        = "recording" ++ "_" ++ App.strftime_YmdHMS ⟨2024, 1, 2, 3, 4, 5⟩ ++ "_"
            ++ ("123e4567-e89b" : String).take 8 ++ ".wav" :=
  ⟨by decide,
    (generated_filename_shape "recording" ".wav" ⟨2024, 1, 2, 3, 4, 5⟩ "123e4567-e89b"
      (by decide)).1⟩

/-- C4 counterexample: when the backend's listing holds exactly the bare prefix
marker key, `list_s3_files` returns the single-element collection containing just the
prefix — it does not exclude the marker itself. -/
theorem list_returns_bare_marker_cex :
    (App.list_s3_files (fun _ _ => Except.ok (some ["source/"])) "bucket" "source/"
        none).1 = ["source/"] := rfl

/-- C4 (amended): a listing with no objects under the prefix yields the empty
collection, not an error; and the exclusion of the bare prefix marker happens in the
presentation layer, whose displayed audio list never contains the `"source/"`
marker key. -/
theorem list_empty_prefix_and_marker_excluded_by_display (listObjects : App.ListBehavior)
    (bucket pfx : String) (fe : Option String) (files : List String)
    (hempty : listObjects bucket pfx = Except.ok none) :
    (App.list_s3_files listObjects bucket pfx fe).1 = []
    ∧ "source/" ∉ App.displayed_audio_files files := by
  constructor
  · unfold App.list_s3_files
    rw [hempty]
  · unfold App.displayed_audio_files
    split
    · simp
    · simp

/-- Witness for the amended C4: an empty-prefix response and a marker-only listing. -/
theorem list_empty_prefix_and_marker_excluded_by_display_witness :
    (App.list_s3_files (fun _ _ => Except.ok none) "b" "source/" none).1 = []
    ∧ "source/" ∉ App.displayed_audio_files ["source/"] :=
  list_empty_prefix_and_marker_excluded_by_display (fun _ _ => Except.ok none)
    "b" "source/" none ["source/"] rfl

/-- C5: a key is in the filtered listing exactly when it is in the backend's listing
and its lowercased name ends with the lowercased filter string. -/
theorem list_filter_keeps_exactly_matching (listObjects : App.ListBehavior)
    (bucket pfx : String) (keys : List String) (fe k : String)
    (hresp : listObjects bucket pfx = Except.ok (some keys)) :
    k ∈ (App.list_s3_files listObjects bucket pfx (some fe)).1 ↔
      k ∈ keys ∧ App.pyEndsWith (App.pyLower k) (App.pyLower fe) = true := by
  unfold App.list_s3_files
  rw [hresp]
  by_cases hfe : fe = ""
  · subst hfe
    simp [pyLower_blank, pyEndsWith_blank]
  · simp [hfe, List.mem_filter]

/-- Witness for C5 on the spec's example `[a.TXT, b.wav, c.txt]` with filter `.txt`,
including the resulting collection `[a.TXT, c.txt]`. -/
theorem list_filter_keeps_exactly_matching_witness :
    ("a.TXT" ∈ (App.list_s3_files
          (fun _ _ => Except.ok (some ["a.TXT", "b.wav", "c.txt"])) "b" "transcription/"
          (some ".txt")).1
      ↔ "a.TXT" ∈ (["a.TXT", "b.wav", "c.txt"] : List String)
        ∧ App.pyEndsWith (App.pyLower "a.TXT") (App.pyLower ".txt") = true)
    ∧ ("b.wav" ∈ (App.list_s3_files
          (fun _ _ => Except.ok (some ["a.TXT", "b.wav", "c.txt"])) "b" "transcription/"
          (some ".txt")).1
      ↔ "b.wav" ∈ (["a.TXT", "b.wav", "c.txt"] : List String)
        ∧ App.pyEndsWith (App.pyLower "b.wav") (App.pyLower ".txt") = true)
    ∧ (App.list_s3_files (fun _ _ => Except.ok (some ["a.TXT", "b.wav", "c.txt"]))
        "b" "transcription/" (some ".txt")).1 = ["a.TXT", "c.txt"] := by
  refine ⟨?_, ?_, by decide⟩
  · exact list_filter_keeps_exactly_matching
      (fun _ _ => Except.ok (some ["a.TXT", "b.wav", "c.txt"])) "b" "transcription/"
      ["a.TXT", "b.wav", "c.txt"] ".txt" "a.TXT" rfl
  · exact list_filter_keeps_exactly_matching
      (fun _ _ => Except.ok (some ["a.TXT", "b.wav", "c.txt"])) "b" "transcription/"
      ["a.TXT", "b.wav", "c.txt"] ".txt" "b.wav" rfl

/-- C7: capturing `duration` seconds at rate `sample_rate` and serialising yields a
WAV whose declared channel count is 1, sample width is 2 bytes, frame rate is the
sample rate, and declared frame count is exactly `duration * sample_rate`, which is
also the length of the captured mono int16 buffer. -/
theorem wav_roundtrip_fields (device : Nat → Int) (duration sample_rate : Nat) :
    (App.save_wav_file (App.record_audio device duration sample_rate).1
        (App.record_audio device duration sample_rate).2).nchannels = 1
    ∧ (App.save_wav_file (App.record_audio device duration sample_rate).1
        (App.record_audio device duration sample_rate).2).sampwidth = 2
    ∧ (App.save_wav_file (App.record_audio device duration sample_rate).1
        (App.record_audio device duration sample_rate).2).framerate = sample_rate
    ∧ (App.record_audio device duration sample_rate).1.length = duration * sample_rate
    ∧ (App.save_wav_file (App.record_audio device duration sample_rate).1
        (App.record_audio device duration sample_rate).2).nframes
      = duration * sample_rate := by
  refine ⟨rfl, rfl, rfl, by simp [App.record_audio], ?_⟩
  show App.tobytes_length (App.record_audio device duration sample_rate).1 / (2 * 1)
      = duration * sample_rate
  simp [App.tobytes_length, App.record_audio]

/-- C8: a storage error while reading a text object is reported exactly once and the
caller-visible result is `none`, with no exception escaping the wrapper. -/
theorem read_error_reported_once_returns_none (getObject : App.ReadBehavior)
    (bucket key e : String) (herr : getObject bucket key = Except.error e) :
    App.read_text_file getObject bucket key
      = (none, ["Error reading file: " ++ e]) := by
  unfold App.read_text_file
  rw [herr]

/-- Witness for C8 on a missing-object error. -/
theorem read_error_reported_once_returns_none_witness :
    App.read_text_file (fun _ _ => Except.error "NoSuchKey") "b" "transcription/x.txt"
      = (none, ["Error reading file: " ++ "NoSuchKey"]) :=
  read_error_reported_once_returns_none (fun _ _ => Except.error "NoSuchKey") "b"
    "transcription/x.txt" "NoSuchKey" rfl

/-- C9: a listing that fails with a storage client error returns the empty list — the
very value an empty prefix returns — so callers cannot distinguish the two from the
returned collection. -/
theorem list_error_returns_empty_like_empty (lerr lempty : App.ListBehavior)
    (bucket pfx : String) (fe : Option String) (e : String)
    (herr : lerr bucket pfx = Except.error e)
    (hempty : lempty bucket pfx = Except.ok none) :
    (App.list_s3_files lerr bucket pfx fe).1 = []
    ∧ (App.list_s3_files lerr bucket pfx fe).1
      = (App.list_s3_files lempty bucket pfx fe).1 := by
  unfold App.list_s3_files
  rw [herr, hempty]
  exact ⟨rfl, rfl⟩

/-- Witness for C9: a denied listing next to a genuinely empty prefix. -/
theorem list_error_returns_empty_like_empty_witness :
    (App.list_s3_files (fun _ _ => Except.error "AccessDenied") "b" "source/" none).1 = []
    ∧ (App.list_s3_files (fun _ _ => Except.error "AccessDenied") "b" "source/" none).1
      = (App.list_s3_files (fun _ _ => Except.ok none) "b" "source/" none).1 :=
  list_error_returns_empty_like_empty (fun _ _ => Except.error "AccessDenied")
    (fun _ _ => Except.ok none) "b" "source/" none "AccessDenied" rfl rfl

/-- Helper: when the existence-check loop settles on a filename, the existence check
of that filename's key reported the key absent. -/
theorem upload_loop_ok_not_exists (head : App.HeadBehavior) (bucket : String)
    (cand : Nat → String) :
    ∀ fuel i u, App.upload_loop head bucket cand i fuel = Except.ok (some u) →
      App.check_file_exists head bucket ("source/" ++ u) = Except.ok false := by
  intro fuel
  induction fuel with
  | zero =>
    intro i u h
    simp [App.upload_loop] at h
  | succ f ih =>
    intro i u h
    cases hc : App.check_file_exists head bucket ("source/" ++ cand i) with
    | error c =>
      simp [App.upload_loop, hc] at h
    | ok b =>
      cases b with
      | true =>
        simp only [App.upload_loop, hc] at h
        exact ih (i + 1) u h
      | false =>
        simp only [App.upload_loop, hc, Except.ok.injEq, Option.some.injEq] at h
        rw [← h]
        exact hc

/-- C1: when the upload succeeds with filename u, the loop regenerated past every
colliding candidate (a candidate whose check reported `True` makes the loop continue
with the next candidate), the allocated key's existence check reported the key
absent, the key differs from every key the check reports as existing, and the
uploaded key is exactly `"source/" ++ u`. -/
theorem allocation_never_returns_existing_key (head : App.HeadBehavior)
    (uploadFile : App.UploadBehavior) (bucket file_path name ext : String)
    (nows : Nat → App.DateTime) (uuids : Nat → String) (fuel : Nat)
    (u : String) (keys : List String)
    (h : App.upload_to_s3 head uploadFile bucket file_path name ext nows uuids fuel
          = (some (true, some u), keys)) :
    (∀ i f,
        App.check_file_exists head bucket
            ("source/" ++ App.generate_unique_filename name ext (nows i) (uuids i))
          = Except.ok true →
        App.upload_loop head bucket
            (fun j => App.generate_unique_filename name ext (nows j) (uuids j)) i (f + 1)
          = App.upload_loop head bucket
              (fun j => App.generate_unique_filename name ext (nows j) (uuids j)) (i + 1) f)
    ∧ App.check_file_exists head bucket ("source/" ++ u) = Except.ok false
    ∧ (∀ k, App.check_file_exists head bucket k = Except.ok true → "source/" ++ u ≠ k)
    ∧ keys = ["source/" ++ u] := by
  simp only [App.upload_to_s3] at h
  cases hl : App.upload_loop head bucket
      (fun j => App.generate_unique_filename name ext (nows j) (uuids j)) 0 fuel with
  | error c =>
    rw [hl] at h
    simp at h
  | ok o =>
    cases o with
    | none =>
      rw [hl] at h
      simp at h
    | some v =>
      rw [hl] at h
      cases hu : uploadFile file_path bucket ("source/" ++ v) with
      | some c =>
        simp [hu] at h
      | none =>
        simp only [hu, Prod.mk.injEq, Option.some.injEq, true_and] at h
        obtain ⟨hv, hk⟩ := h
        subst hv
        subst hk
        have hchk := upload_loop_ok_not_exists head bucket
          (fun j => App.generate_unique_filename name ext (nows j) (uuids j)) fuel 0 v hl
        refine ⟨?_, hchk, ?_, rfl⟩
        · intro i f hstep
          simp only [App.upload_loop, hstep]
        · intro k hk2 heq
          rw [← heq, hchk] at hk2
          simp at hk2

/-- Witness for C1: candidate 0 collides with a pre-existing key, the loop
regenerates, and the returned filename's key is reported absent and differs from the
pre-existing key. -/
theorem allocation_never_returns_existing_key_witness :
    App.check_file_exists
        (fun _ k => if k = "source/r_20240102_030405_aaaaaaaa.w" then App.HeadResult.ok
          else App.HeadResult.clientError "404") "b"
        ("source/" ++ "r_20240102_030405_bbbbbbbb.w") = Except.ok false
    ∧ "source/" ++ "r_20240102_030405_bbbbbbbb.w"
        ≠ "source/r_20240102_030405_aaaaaaaa.w" := by
  have T := allocation_never_returns_existing_key
    (fun _ k => if k = "source/r_20240102_030405_aaaaaaaa.w" then App.HeadResult.ok
      else App.HeadResult.clientError "404")
    (fun _ _ _ => none) "b" "/tmp/f" "r" ".w" (fun _ => ⟨2024, 1, 2, 3, 4, 5⟩)
    (fun i => if i = 0 then "aaaaaaaa" else "bbbbbbbb") 2
    "r_20240102_030405_bbbbbbbb.w" ["source/r_20240102_030405_bbbbbbbb.w"] (by decide)
  exact ⟨T.2.1, T.2.2.1 "source/r_20240102_030405_aaaaaaaa.w" (by decide)⟩

/-- C2: a `ClientError` from the existence check is treated as "the key does not
exist" exactly when its code is 404 — any other code is re-raised, which terminates
the candidate loop at that very check (so that candidate is never uploaded) and makes
the overall upload return the failure pair `(False, None)` with nothing uploaded. -/
theorem nonmissing_check_error_aborts (head : App.HeadBehavior)
    (uploadFile : App.UploadBehavior) (bucket file_path name ext : String)
    (nows : Nat → App.DateTime) (uuids : Nat → String) (fuel : Nat) :
    (∀ key code, head bucket key = App.HeadResult.clientError code →
        ((App.check_file_exists head bucket key = Except.ok false ↔ code = "404")
          ∧ (code ≠ "404" →
              App.check_file_exists head bucket key = Except.error code)))
    ∧ (∀ i f c,
        App.check_file_exists head bucket
            ("source/" ++ App.generate_unique_filename name ext (nows i) (uuids i))
          = Except.error c →
        App.upload_loop head bucket
            (fun j => App.generate_unique_filename name ext (nows j) (uuids j)) i (f + 1)
          = Except.error c)
    ∧ (∀ c,
        App.upload_loop head bucket
            (fun j => App.generate_unique_filename name ext (nows j) (uuids j)) 0 fuel
          = Except.error c →
        App.upload_to_s3 head uploadFile bucket file_path name ext nows uuids fuel
          = (some (false, none), [])) := by
  refine ⟨?_, ?_, ?_⟩
  · intro key code hcode
    unfold App.check_file_exists
    rw [hcode]
    constructor
    · by_cases h4 : code = "404" <;> simp [h4]
    · intro hne
      simp [hne]
  · intro i f c hc
    simp only [App.upload_loop, hc]
  · intro c hl
    simp only [App.upload_to_s3]
    rw [hl]

/-- Witness for C2: a 403 error is re-raised by the check and turns the whole upload
into the failure pair with nothing uploaded. -/
theorem nonmissing_check_error_aborts_witness :
    (App.check_file_exists (fun _ _ => App.HeadResult.clientError "403") "b" "k"
        = Except.ok false ↔ ("403" : String) = "404")
    ∧ App.check_file_exists (fun _ _ => App.HeadResult.clientError "403") "b" "k"
        = Except.error "403"
    ∧ App.upload_to_s3 (fun _ _ => App.HeadResult.clientError "403") (fun _ _ _ => none)
        "b" "/tmp/f" "r" ".w" (fun _ => ⟨2024, 1, 2, 3, 4, 5⟩) (fun _ => "aaaaaaaa") 1
      = (some (false, none), []) := by
  have T := nonmissing_check_error_aborts
    (fun _ _ => App.HeadResult.clientError "403") (fun _ _ _ => none) "b" "/tmp/f"
    "r" ".w" (fun _ => ⟨2024, 1, 2, 3, 4, 5⟩) (fun _ => "aaaaaaaa") 1
  exact ⟨(T.1 "k" "403" rfl).1, (T.1 "k" "403" rfl).2 (by decide),
    T.2.2 "403" (by decide)⟩

/-- C10: whenever the upload wrapper returns a pair, success holds exactly when the
filename is non-null; failure comes with `(False, None)` and no uploaded key, and
success with filename u comes with the single uploaded key `"source/" ++ u`, a
successful `upload_file` on that key, and u being the filename the existence-check
loop settled on. -/
theorem upload_result_invariant (head : App.HeadBehavior)
    (uploadFile : App.UploadBehavior) (bucket file_path name ext : String)
    (nows : Nat → App.DateTime) (uuids : Nat → String) (fuel : Nat)
    (s : Bool) (fn : Option String) (keys : List String)
    (h : App.upload_to_s3 head uploadFile bucket file_path name ext nows uuids fuel
          = (some (s, fn), keys)) :
    (s = true ↔ fn ≠ none)
    ∧ (s = false → fn = none ∧ keys = [])
    ∧ (∀ u, fn = some u →
        s = true ∧ keys = ["source/" ++ u]
        ∧ uploadFile file_path bucket ("source/" ++ u) = none
        ∧ App.upload_loop head bucket
            (fun j => App.generate_unique_filename name ext (nows j) (uuids j)) 0 fuel
          = Except.ok (some u)) := by
  simp only [App.upload_to_s3] at h
  cases hl : App.upload_loop head bucket
      (fun j => App.generate_unique_filename name ext (nows j) (uuids j)) 0 fuel with
  | error c =>
    rw [hl] at h
    simp only [Prod.mk.injEq, Option.some.injEq] at h
    obtain ⟨⟨hs, hfn⟩, hkeys⟩ := h
    subst hs; subst hfn; subst hkeys
    refine ⟨by simp, fun _ => ⟨rfl, rfl⟩, ?_⟩
    intro u hu
    cases hu
  | ok o =>
    cases o with
    | none =>
      rw [hl] at h
      simp at h
    | some v =>
      rw [hl] at h
      cases hu : uploadFile file_path bucket ("source/" ++ v) with
      | some c =>
        simp only [hu, Prod.mk.injEq, Option.some.injEq] at h
        obtain ⟨⟨hs, hfn⟩, hkeys⟩ := h
        subst hs; subst hfn; subst hkeys
        refine ⟨by simp, fun _ => ⟨rfl, rfl⟩, ?_⟩
        intro u hu2
        cases hu2
      | none =>
        simp only [hu, Prod.mk.injEq, Option.some.injEq] at h
        obtain ⟨⟨hs, hfn⟩, hkeys⟩ := h
        subst hs
        refine ⟨by simp [← hfn], by simp, ?_⟩
        intro u hu2
        rw [← hfn] at hu2
        cases hu2
        exact ⟨rfl, hkeys.symm, hu, rfl⟩

/-- Witness for C10: with no pre-existing keys and a succeeding `upload_file`, the
returned filename is the loop's choice and the uploaded key is its `source/` key. -/
theorem upload_result_invariant_witness :
    (["source/r_20240102_030405_aaaaaaaa.w"] : List String)
      = ["source/" ++ "r_20240102_030405_aaaaaaaa.w"]
    ∧ App.upload_loop (fun _ _ => App.HeadResult.clientError "404") "b"
        (fun j => App.generate_unique_filename "r" ".w"
          ((fun _ => (⟨2024, 1, 2, 3, 4, 5⟩ : App.DateTime)) j)
          ((fun _ => "aaaaaaaa") j)) 0 1
      = Except.ok (some "r_20240102_030405_aaaaaaaa.w") := by
  have T := upload_result_invariant (fun _ _ => App.HeadResult.clientError "404")
    (fun _ _ _ => none) "b" "/tmp/f" "r" ".w"
    (fun _ => ⟨2024, 1, 2, 3, 4, 5⟩) (fun _ => "aaaaaaaa") 1 true
    (some "r_20240102_030405_aaaaaaaa.w") ["source/r_20240102_030405_aaaaaaaa.w"]
    (by decide)
  have T3 := T.2.2 "r_20240102_030405_aaaaaaaa.w" rfl
  exact ⟨T3.2.1, T3.2.2.2⟩

/-- C6: once serialisation has produced a temporary file path (a real, non-empty
path), the record-then-upload flow deletes that file after the upload attempt — the
upload call is made and, whether it returns success, returns failure, or raises, the
path no longer exists afterwards. -/
theorem temp_file_deleted_after_upload_attempt (fs : List String) (rec : List Int)
    (p : String) (upload : App.UploadCall) (hp : p ≠ "") :
    App.os_path_exists (App.main_record_flow fs (some rec) (some p) upload).2 p = false
    ∧ (App.main_record_flow fs (some rec) (some p) upload).1 = some upload := by
  unfold App.main_record_flow App.os_path_exists App.os_unlink
  simp [hp]

/-- Witness for C6: a concrete flow whose upload raises still ends with the temp
file gone. -/
theorem temp_file_deleted_after_upload_attempt_witness :
    App.os_path_exists
        (App.main_record_flow ["/other"] (some [1]) (some "/tmp/x.wav")
          App.UploadCall.raises).2 "/tmp/x.wav" = false
    ∧ (App.main_record_flow ["/other"] (some [1]) (some "/tmp/x.wav")
          App.UploadCall.raises).1 = some App.UploadCall.raises :=
  temp_file_deleted_after_upload_attempt ["/other"] [1] "/tmp/x.wav"
    App.UploadCall.raises (by decide)
